import Mathlib

/-
Verification of the Windows C-API registration shim in
src/windows/recollect_utils_plugin_c_api.cpp.

The shim is:

  void RecollectUtilsPluginCApiRegisterWithRegistrar(
      FlutterDesktopPluginRegistrarRef registrar) {
    recollect_utils::RecollectUtilsPlugin::RegisterWithRegistrar(
        flutter::PluginRegistrarManager::GetInstance()
            ->GetRegistrar<flutter::PluginRegistrarWindows>(registrar));
  }

We embed it shallowly: the opaque handle is a Nat, the typed Windows
registrar is a structure wrapping the handle it was resolved from, the
process-wide registrar manager is a record holding an instance identity and
the lookup function that GetRegistrar applies, and the host world records
the manager singleton together with state the shim never touches
(environment variables, file system, randomness) so that frame and
noninterference properties are expressible.  Each collaborator call is
recorded as an event; the shim returns its C++ return value (void, i.e.
Unit) paired with the ordered trace of the calls it makes.
-/

namespace RecollectUtils

/-- Opaque registrar handle supplied by the Flutter desktop embedder
(`FlutterDesktopPluginRegistrarRef` in the C ABI). -/
abbrev FlutterDesktopPluginRegistrarRef := Nat

/-- Typed Windows registrar (`flutter::PluginRegistrarWindows`), as produced
by the registrar-manager lookup from an opaque handle. -/
structure PluginRegistrarWindows where
  refHandle : FlutterDesktopPluginRegistrarRef
deriving DecidableEq, Repr

/-- State of a `flutter::PluginRegistrarManager`: an instance identity
(to distinguish the process-wide singleton from any other manager) and the
mapping from opaque handles to typed Windows registrars that
`GetRegistrar<flutter::PluginRegistrarWindows>` implements. -/
structure PluginRegistrarManager where
  instanceId : Nat
  registrarOf : FlutterDesktopPluginRegistrarRef → PluginRegistrarWindows

/-- Host world at the time of the call.  `singletonManager` is the state of
the process-wide `PluginRegistrarManager`; `pluginRegistry` (abstract type
`σ`) is the host plugin-registry state that the delegated plugin
registration method may modify; the remaining fields model ambient state
(environment, files, randomness) that the shim has no access to. -/
structure HostWorld (σ : Type) where
  singletonManager : PluginRegistrarManager
  pluginRegistry : σ
  environmentVars : List (String × String)
  fileSystem : List (String × String)
  randomSeed : Nat

/-- Observable collaborator calls.  `spawnThread` and `scheduleDeferredWork`
are included so that the absence of asynchronous behavior is a statement
about the trace rather than about an impoverished event alphabet. -/
inductive HostCall where
  | managerGetInstance : HostCall
  | managerGetRegistrar (managerId : Nat)
      (handle : FlutterDesktopPluginRegistrarRef) : HostCall
  | pluginRegisterWithRegistrar (r : PluginRegistrarWindows) : HostCall
  | spawnThread : HostCall
  | scheduleDeferredWork : HostCall
deriving DecidableEq, Repr

/-- Outbound call into the plugin class
(`RecollectUtilsPlugin::RegisterWithRegistrar`). -/
def HostCall.isPluginCall : HostCall → Bool
  | .pluginRegisterWithRegistrar _ => true
  | _ => false

/-- Registrar-manager lookup call (`GetRegistrar`). -/
def HostCall.isLookupCall : HostCall → Bool
  | .managerGetRegistrar _ _ => true
  | _ => false

/-- Thread spawn or deferred-work scheduling. -/
def HostCall.isAsyncCall : HostCall → Bool
  | .spawnThread => true
  | .scheduleDeferredWork => true
  | _ => false

/-- The opaque handle a lookup call was made with, when the event is a
lookup. -/
def HostCall.handleOf : HostCall → Option FlutterDesktopPluginRegistrarRef
  | .managerGetRegistrar _ h => some h
  | _ => none

/-- The identity of the manager a lookup call was made on, when the event is
a lookup. -/
def HostCall.managerOf : HostCall → Option Nat
  | .managerGetRegistrar m _ => some m
  | _ => none

/-- `flutter::PluginRegistrarManager::GetInstance()`: returns the
process-wide singleton manager, recording the call. -/
def PluginRegistrarManager.GetInstance {σ : Type} (w : HostWorld σ) :
    PluginRegistrarManager × List HostCall :=
  (w.singletonManager, [HostCall.managerGetInstance])

/-- `PluginRegistrarManager::GetRegistrar<flutter::PluginRegistrarWindows>`:
resolves an opaque handle to the typed Windows registrar via the manager
state, recording the call together with the manager identity and the handle
actually used. -/
def PluginRegistrarManager.GetRegistrar (m : PluginRegistrarManager)
    (registrar : FlutterDesktopPluginRegistrarRef) :
    PluginRegistrarWindows × List HostCall :=
  (m.registrarOf registrar,
    [HostCall.managerGetRegistrar m.instanceId registrar])

namespace RecollectUtilsPlugin

/-- `recollect_utils::RecollectUtilsPlugin::RegisterWithRegistrar`.  The
plugin class is outside the shim; at the shim boundary the call returns void
and is recorded as one outbound event carrying the typed registrar. -/
def RegisterWithRegistrar (r : PluginRegistrarWindows) :
    Unit × List HostCall :=
  ((), [HostCall.pluginRegisterWithRegistrar r])

end RecollectUtilsPlugin

/-- The exported shim `RecollectUtilsPluginCApiRegisterWithRegistrar`,
translated line by line: call `GetInstance`, then `GetRegistrar` on the
result with the incoming handle, then the plugin registration method with
the resolved registrar; return void.  The second component is the ordered
trace of collaborator calls. -/
def RecollectUtilsPluginCApiRegisterWithRegistrar {σ : Type}
    (w : HostWorld σ) (registrar : FlutterDesktopPluginRegistrarRef) :
    Unit × List HostCall :=
  let inst := PluginRegistrarManager.GetInstance w
  let typed := PluginRegistrarManager.GetRegistrar inst.1 registrar
  let ret := RecollectUtilsPlugin.RegisterWithRegistrar typed.1
  (ret.1, inst.2 ++ typed.2 ++ ret.2)

/-- The call trace of one shim invocation. -/
def shimTrace {σ : Type} (w : HostWorld σ)
    (registrar : FlutterDesktopPluginRegistrarRef) : List HostCall :=
  (RecollectUtilsPluginCApiRegisterWithRegistrar w registrar).2

/-- State effect of a single collaborator call on the host world, given the
(unknown) effect `pluginEffect` of the plugin registration method on the
plugin-registry state.  Only the plugin registration call changes any
state; the lookups are reads. -/
def HostCall.worldEffect {σ : Type}
    (pluginEffect : PluginRegistrarWindows → σ → σ) :
    HostCall → HostWorld σ → HostWorld σ
  | .pluginRegisterWithRegistrar r, w =>
      { w with pluginRegistry := pluginEffect r w.pluginRegistry }
  | .managerGetInstance, w => w
  | .managerGetRegistrar _ _, w => w
  | .spawnThread, w => w
  | .scheduleDeferredWork, w => w

/-- Run a trace of collaborator calls over the host world, in order. -/
def runTrace {σ : Type} (pluginEffect : PluginRegistrarWindows → σ → σ) :
    List HostCall → HostWorld σ → HostWorld σ
  | [], w => w
  | c :: cs, w => runTrace pluginEffect cs (c.worldEffect pluginEffect w)

/-- The shim composition lifted to fault-capable collaborators: the
registrar-manager lookup and the plugin registration method may each fail
with a fault of type `ε`.  The body is exactly the source composition --
look the handle up, pass the result on -- with no check, catch, or error
construction of its own. -/
def registerShimExc {ε : Type}
    (getRegistrar :
      FlutterDesktopPluginRegistrarRef → Except ε PluginRegistrarWindows)
    (registerWithRegistrar : PluginRegistrarWindows → Except ε Unit)
    (registrar : FlutterDesktopPluginRegistrarRef) : Except ε Unit :=
  match getRegistrar registrar with
  | .error e => .error e
  | .ok typed => registerWithRegistrar typed

/-- A concrete registrar manager used by concrete witnesses. -/
def mgrA : PluginRegistrarManager :=
  { instanceId := 0, registrarOf := fun h => { refHandle := h } }

/-- A concrete host world used by concrete witnesses. -/
def worldA : HostWorld Nat :=
  { singletonManager := mgrA
    pluginRegistry := 0
    environmentVars := [("PATH", "/usr/bin")]
    fileSystem := []
    randomSeed := 7 }

/-- A second concrete host world: same manager singleton as `worldA`, but
different ambient state. -/
def worldB : HostWorld Nat :=
  { singletonManager := mgrA
    pluginRegistry := 0
    environmentVars := []
    fileSystem := [("log.txt", "x")]
    randomSeed := 99 }

/-- C1: for every registrar handle (and every state of the manager
singleton), one shim call makes exactly one outbound call into the plugin:
filtering the trace to plugin calls leaves the single call to
`RecollectUtilsPlugin::RegisterWithRegistrar`, whose argument is the typed
Windows registrar the manager lookup derives from that handle. -/
theorem c1_exactly_one_plugin_call {σ : Type} (w : HostWorld σ)
    (registrar : FlutterDesktopPluginRegistrarRef) :
    (shimTrace w registrar).filter HostCall.isPluginCall =
      [HostCall.pluginRegisterWithRegistrar
        (w.singletonManager.registrarOf registrar)] := by
  rfl

/-- C2: the shim validates nothing and raises no fault of its own.  In the
fault-lifted composition, every fault of an arbitrary shim call is exactly
a fault of the registrar-manager lookup, or a fault of the delegated plugin
registration method applied to a successfully resolved registrar. -/
theorem c2_faults_only_from_collaborators {ε : Type}
    (getRegistrar :
      FlutterDesktopPluginRegistrarRef → Except ε PluginRegistrarWindows)
    (registerWithRegistrar : PluginRegistrarWindows → Except ε Unit)
    (registrar : FlutterDesktopPluginRegistrarRef) (e : ε)
    (h : registerShimExc getRegistrar registerWithRegistrar registrar =
      .error e) :
    getRegistrar registrar = .error e ∨
      ∃ r, getRegistrar registrar = .ok r ∧
        registerWithRegistrar r = .error e := by
  cases hg : getRegistrar registrar with
  | error e₀ =>
      simp [registerShimExc, hg] at h
      exact Or.inl (by rw [h])
  | ok r =>
      simp [registerShimExc, hg] at h
      exact Or.inr ⟨r, rfl, h⟩

/-- Closed instance of C2: with a lookup that fails on handle 5, the fault
the shim reports is traced back to the lookup. -/
theorem c2_faults_only_from_collaborators_witness :
    (fun _ : FlutterDesktopPluginRegistrarRef =>
        (Except.error 42 : Except Nat PluginRegistrarWindows)) 5 =
        .error 42 ∨
      ∃ r, (fun _ : FlutterDesktopPluginRegistrarRef =>
          (Except.error 42 : Except Nat PluginRegistrarWindows)) 5 =
          .ok r ∧
        (fun _ : PluginRegistrarWindows =>
          (Except.ok () : Except Nat Unit)) r = .error 42 :=
  c2_faults_only_from_collaborators
    (fun _ => Except.error 42) (fun _ => Except.ok ()) 5 42 rfl

/-- C3: one shim call performs exactly one handle-to-typed-registrar
conversion, and that conversion occurs strictly before the plugin
registration call in the trace. -/
theorem c3_convert_once_before_register {σ : Type} (w : HostWorld σ)
    (registrar : FlutterDesktopPluginRegistrarRef) :
    (shimTrace w registrar).countP HostCall.isLookupCall = 1 ∧
    ∃ i j : Nat, i < j ∧
      (shimTrace w registrar).get? i =
        some (HostCall.managerGetRegistrar
          w.singletonManager.instanceId registrar) ∧
      (shimTrace w registrar).get? j =
        some (HostCall.pluginRegisterWithRegistrar
          (w.singletonManager.registrarOf registrar)) :=
  ⟨rfl, 1, 2, by omega, rfl, rfl⟩

/-- C4: the shim returns void for every input, and running its trace over
the host world produces exactly the state change of the delegated plugin
registration call on the plugin registry, whatever that effect is. -/
theorem c4_void_result_effect_via_delegate {σ : Type}
    (pluginEffect : PluginRegistrarWindows → σ → σ) (w : HostWorld σ)
    (registrar : FlutterDesktopPluginRegistrarRef) :
    (RecollectUtilsPluginCApiRegisterWithRegistrar w registrar).1 = () ∧
    runTrace pluginEffect (shimTrace w registrar) w =
      { w with pluginRegistry := (pluginEffect
          (w.singletonManager.registrarOf registrar) w.pluginRegistry) } :=
  ⟨rfl, rfl⟩

/-- C5: frame property.  Whatever the plugin registration method does to
the plugin-registry state, running the shim trace leaves every other piece
of the host world -- the manager singleton, environment variables, file
system, and random seed -- unchanged. -/
theorem c5_frame_only_registry_changes {σ : Type}
    (pluginEffect : PluginRegistrarWindows → σ → σ) (w : HostWorld σ)
    (registrar : FlutterDesktopPluginRegistrarRef) :
    (runTrace pluginEffect (shimTrace w registrar) w).singletonManager =
        w.singletonManager ∧
    (runTrace pluginEffect (shimTrace w registrar) w).environmentVars =
        w.environmentVars ∧
    (runTrace pluginEffect (shimTrace w registrar) w).fileSystem =
        w.fileSystem ∧
    (runTrace pluginEffect (shimTrace w registrar) w).randomSeed =
        w.randomSeed :=
  ⟨rfl, rfl, rfl, rfl⟩

/-- C6: the shim is synchronous.  Its trace spawns no thread and schedules
no deferred work, and it is exactly the three collaborator calls -- the
singleton access, the registrar lookup, the plugin registration -- in that
order, all completed before the function returns. -/
theorem c6_synchronous_ordered_no_async {σ : Type} (w : HostWorld σ)
    (registrar : FlutterDesktopPluginRegistrarRef) :
    (shimTrace w registrar).filter HostCall.isAsyncCall = [] ∧
    shimTrace w registrar =
      [HostCall.managerGetInstance,
       HostCall.managerGetRegistrar w.singletonManager.instanceId registrar,
       HostCall.pluginRegisterWithRegistrar
         (w.singletonManager.registrarOf registrar)] :=
  ⟨rfl, rfl⟩

/-- C7: the handle is forwarded to the lookup unmodified: collecting the
handle arguments of all lookup calls in the trace yields exactly the input
handle, once. -/
theorem c7_handle_forwarded_unmodified {σ : Type} (w : HostWorld σ)
    (registrar : FlutterDesktopPluginRegistrarRef) :
    (shimTrace w registrar).filterMap HostCall.handleOf = [registrar] := by
  rfl

/-- C8: noninterference.  The outcome of a shim call -- return value and
full collaborator trace, hence also the resolved registrar and the argument
of the plugin registration call -- depends only on the handle and the state
of the manager singleton: two worlds agreeing on the singleton produce
identical outcomes however their environment, file system, or randomness
differ. -/
theorem c8_deterministic_in_handle_and_manager {σ : Type}
    (w₁ w₂ : HostWorld σ)
    (registrar : FlutterDesktopPluginRegistrarRef)
    (h : w₁.singletonManager = w₂.singletonManager) :
    RecollectUtilsPluginCApiRegisterWithRegistrar w₁ registrar =
      RecollectUtilsPluginCApiRegisterWithRegistrar w₂ registrar := by
  unfold RecollectUtilsPluginCApiRegisterWithRegistrar
    PluginRegistrarManager.GetInstance PluginRegistrarManager.GetRegistrar
    RecollectUtilsPlugin.RegisterWithRegistrar
  rw [h]

/-- Closed instance of C8: two concrete worlds sharing the manager
singleton but differing in environment, files, and seed give the same
outcome on handle 3. -/
theorem c8_deterministic_in_handle_and_manager_witness :
    RecollectUtilsPluginCApiRegisterWithRegistrar worldA 3 =
      RecollectUtilsPluginCApiRegisterWithRegistrar worldB 3 :=
  c8_deterministic_in_handle_and_manager worldA worldB 3 rfl

/-- C9: the manager used for the lookup is always the process-wide
singleton returned by `GetInstance`: the trace contains the `GetInstance`
call, and collecting the manager identities of all lookup calls yields
exactly the singleton's identity. -/
theorem c9_lookup_via_singleton_manager {σ : Type} (w : HostWorld σ)
    (registrar : FlutterDesktopPluginRegistrarRef) :
    HostCall.managerGetInstance ∈ shimTrace w registrar ∧
    (PluginRegistrarManager.GetInstance w).1 = w.singletonManager ∧
    (shimTrace w registrar).filterMap HostCall.managerOf =
      [w.singletonManager.instanceId] :=
  ⟨List.mem_cons_self _ _, rfl, rfl⟩

end RecollectUtils
